import Mathlib

/-!
Verification of the gate-controller firmware (portones-fc).

The firmware in `src/portones-fc-firmware/src/main.cpp` drives a single gate
actuator through a timed open/close cycle.  Its observable core is:

* an enumeration `GateState` with states IDLE, OPENING, OPEN, CLOSING;
* globals `currentState`, `gateOpenTime` (a 32-bit `unsigned long` millisecond
  timestamp) and the constant `GATE_OPEN_DURATION = 5000`;
* `processGateCommand` — accepts exactly the action string "OPEN", and only
  when the state is IDLE, in which case it calls `openGate`;
* `openGate` — sets OPENING, writes the servo to 90, sets OPEN, records
  `gateOpenTime = millis()`, publishes a status message with status "open";
* `closeGate` — sets CLOSING, writes the servo to 0, sets IDLE, publishes a
  status message with status "closed";
* `updateGateState` — on each loop tick, when the state is OPEN and the
  unsigned subtraction `millis() - gateOpenTime` is at least
  `GATE_OPEN_DURATION`, calls `closeGate`;
* `reconnectMQTT` — publishes a status message with status "online".

We embed this shallowly: the mutable globals become a record `GateCtrl`,
servo writes and MQTT publications become an explicit output list, `millis()`
becomes an explicit `now` parameter, and the 32-bit unsigned subtraction
becomes `usub` (arithmetic modulo `2^32`).
-/

/-- The `GateState` enumeration from the firmware. -/
inductive GateState where
  | IDLE
  | OPENING
  | OPEN
  | CLOSING
deriving DecidableEq

/-- The mutable gate-related globals of the firmware: `currentState`,
`gateOpenTime`, and the last position written to the servo. -/
structure GateCtrl where
  currentState : GateState
  gateOpenTime : Nat
  servoPos : Nat
deriving DecidableEq

/-- `GATE_OPEN_DURATION = 5000` ms. -/
def GATE_OPEN_DURATION : Nat := 5000

/-- `SERVO_CLOSED_POSITION = 0` degrees. -/
def SERVO_CLOSED_POSITION : Nat := 0

/-- `SERVO_OPEN_POSITION = 90` degrees. -/
def SERVO_OPEN_POSITION : Nat := 90

/-- The width of `unsigned long` on the ESP32 target: `2^32`.  `millis()`
values and `gateOpenTime` live in `[0, U32)`. -/
def U32 : Nat := 4294967296

/-- 32-bit unsigned subtraction `a - b`, for `a b < U32`: the firmware's
`currentTime - gateOpenTime` computed in the clock's unsigned domain. -/
def usub (a b : Nat) : Nat := (a + U32 - b) % U32

/-- The status topic `"portones/gate/status"` that every publication uses. -/
def statusTopic : String := "portones/gate/status"

/-- The JSON payload the firmware publishes for a given status string, e.g.
`statusPayload "open"` is the literal payload of `openGate`. -/
def statusPayload (s : String) : String := "\x7b\"status\":\"" ++ s ++ "\"\x7d"

/-- An observable side effect of the firmware: a servo write or an MQTT
publication. -/
inductive Output where
  | servoWrite (pos : Nat)
  | publish (topic : String) (payload : String)
deriving DecidableEq

/-- `openGate()`: OPENING, servo to `SERVO_OPEN_POSITION`, OPEN, record
`gateOpenTime = now`, publish status "open".  The intermediate states mirror
the source's sequence of assignments. -/
def openGate (now : Nat) (s : GateCtrl) : GateCtrl × List Output :=
  let s1 : GateCtrl := { s with currentState := GateState.OPENING }
  let s2 : GateCtrl := { s1 with servoPos := SERVO_OPEN_POSITION }
  let s3 : GateCtrl := { s2 with currentState := GateState.OPEN, gateOpenTime := now }
  (s3, [Output.servoWrite SERVO_OPEN_POSITION,
        Output.publish statusTopic (statusPayload "open")])

/-- `closeGate()`: CLOSING, servo to `SERVO_CLOSED_POSITION`, IDLE, publish
status "closed". -/
def closeGate (s : GateCtrl) : GateCtrl × List Output :=
  let s1 : GateCtrl := { s with currentState := GateState.CLOSING }
  let s2 : GateCtrl := { s1 with servoPos := SERVO_CLOSED_POSITION }
  let s3 : GateCtrl := { s2 with currentState := GateState.IDLE }
  (s3, [Output.servoWrite SERVO_CLOSED_POSITION,
        Output.publish statusTopic (statusPayload "closed")])

/-- `processGateCommand(action)`: exactly the action "OPEN" is recognized, and
it opens the gate only from IDLE; every other case is a pure log-and-drop. -/
def processGateCommand (action : String) (now : Nat) (s : GateCtrl) :
    GateCtrl × List Output :=
  if action = "OPEN" then
    if s.currentState = GateState.IDLE then openGate now s
    else (s, [])
  else (s, [])

/-- `updateGateState()`: when OPEN and the unsigned elapsed time
`now - gateOpenTime` has reached `GATE_OPEN_DURATION`, close the gate. -/
def updateGateState (now : Nat) (s : GateCtrl) : GateCtrl × List Output :=
  if s.currentState = GateState.OPEN then
    if GATE_OPEN_DURATION ≤ usub now s.gateOpenTime then closeGate s
    else (s, [])
  else (s, [])

/-- Boot state from `setup()`: IDLE, servo driven to the closed position,
`gateOpenTime` zero-initialized. -/
def initState : GateCtrl :=
  { currentState := GateState.IDLE, gateOpenTime := 0,
    servoPos := SERVO_CLOSED_POSITION }

/-- One interaction of the single-threaded main loop: an inbound command
(dispatched by `mqttCallback` to `processGateCommand`), a scheduler tick
(`updateGateState`), or an (re)connection publishing "online". -/
inductive Event where
  | cmd (action : String) (now : Nat)
  | tick (now : Nat)
  | online
deriving DecidableEq

/-- Execute one event against the gate state. -/
def step (s : GateCtrl) : Event → GateCtrl × List Output
  | Event.cmd a now => processGateCommand a now s
  | Event.tick now => updateGateState now s
  | Event.online => (s, [Output.publish statusTopic (statusPayload "online")])

/-- Execute a sequence of events, collecting every output in order. -/
def run (s : GateCtrl) : List Event → GateCtrl × List Output
  | [] => (s, [])
  | e :: es =>
    let r1 := step s e
    let r2 := run r1.1 es
    (r2.1, r1.2 ++ r2.2)

/-- Modelled from the spec: the multi-gate Command Dispatcher of §4.2 is not
present under src/ (the file there is the single-gate variant, whose inbound
message carries no `gateId`).  Per the spec, `handle(gateId, action, now)`
validates `gateId ∈ [1,N]`, silently dropping unknown IDs, and otherwise
applies the command to that gate's record. -/
def handleCommand (N gateId : Nat) (action : String) (now : Nat)
    (gates : Nat → GateCtrl) : (Nat → GateCtrl) × List Output :=
  if 1 ≤ gateId ∧ gateId ≤ N then
    let r := processGateCommand action now (gates gateId)
    (fun i => if i = gateId then r.1 else gates i, r.2)
  else (gates, [])

/-- Is this output a publication the spec's status contract allows, with the
status strings the firmware actually emits ("online", "open", "closed")? -/
def pubOk : Output → Bool
  | Output.publish tp pl =>
      decide (tp = statusTopic) &&
        (decide (pl = statusPayload "online") || decide (pl = statusPayload "open") ||
          decide (pl = statusPayload "closed"))
  | Output.servoWrite _ => true

/-- Stated from the spec's words, for comparison: a publication whose status
string is one of "online", "OPEN", "CLOSED" (upper case), as §6 claims. -/
def specClaimedStatusOk : Output → Bool
  | Output.publish _ pl =>
      decide (pl = statusPayload "online") || decide (pl = statusPayload "OPEN") ||
        decide (pl = statusPayload "CLOSED")
  | Output.servoWrite _ => true

/-- The open/closed status string carried by an output, if any. -/
def ocStatus : Output → Option String
  | Output.publish _ pl =>
      if pl = statusPayload "open" then some "open"
      else if pl = statusPayload "closed" then some "closed"
      else none
  | Output.servoWrite _ => none

/-- The sequence of open/closed status publications in an output list. -/
def ocStatuses (outs : List Output) : List String := outs.filterMap ocStatus

/-- Is the next open/closed publication expected to be "open"?  True exactly
when the gate is IDLE. -/
def expectOpen (s : GateCtrl) : Bool := decide (s.currentState = GateState.IDLE)

/-- Does a status sequence strictly alternate, the next expected entry given
by the flag ("open" when true, "closed" when false)? -/
def altFrom : Bool → List String → Bool
  | _, [] => true
  | true, x :: rest => decide (x = "open") && altFrom false rest
  | false, x :: rest => decide (x = "closed") && altFrom true rest

/-- The gate record after a scheduler-driven close: state IDLE, servo at the
closed position, the (now meaningless) timestamp untouched. -/
def closedFrom (s : GateCtrl) : GateCtrl := { s with currentState := GateState.IDLE, servoPos := SERVO_CLOSED_POSITION }

theorem run_nil (s : GateCtrl) : run s [] = (s, []) := rfl

theorem run_cons (s : GateCtrl) (e : Event) (es : List Event) :
    run s (e :: es) =
      ((run (step s e).1 es).1, (step s e).2 ++ (run (step s e).1 es).2) := rfl

/-- Unsigned 32-bit subtraction of wrapped timestamps recovers the real
elapsed time, as long as the real elapsed time fits in the clock's width. -/
theorem usub_mod (t0 t : Nat) (h1 : t0 ≤ t) (h2 : t - t0 < U32) :
    usub (t % U32) (t0 % U32) = t - t0 := by
  unfold usub U32 at *
  omega

theorem openGate_outs (now : Nat) (s : GateCtrl) :
    (openGate now s).2 = [Output.servoWrite SERVO_OPEN_POSITION,
      Output.publish statusTopic (statusPayload "open")] := rfl

theorem closeGate_outs (s : GateCtrl) :
    (closeGate s).2 = [Output.servoWrite SERVO_CLOSED_POSITION,
      Output.publish statusTopic (statusPayload "closed")] := rfl

theorem step_pubOk (s : GateCtrl) (e : Event) : ((step s e).2).all pubOk = true := by
  cases e with
  | online => rfl
  | cmd a now =>
    show ((processGateCommand a now s).2).all pubOk = true
    unfold processGateCommand
    split
    · split
      · rfl
      · rfl
    · rfl
  | tick now =>
    show ((updateGateState now s).2).all pubOk = true
    unfold updateGateState
    split
    · split
      · rfl
      · rfl
    · rfl

theorem run_pubOk (events : List Event) : ∀ s : GateCtrl,
    ((run s events).2).all pubOk = true := by
  induction events with
  | nil => intro s; rfl
  | cons e es ih =>
    intro s
    rw [run_cons]
    simp only [List.all_append, Bool.and_eq_true]
    exact ⟨step_pubOk s e, ih (step s e).1⟩

/-- C1: an inbound command whose gateId lies outside [1,N] is dropped by the
Command Dispatcher: every gate record is unchanged, nothing is published, no
actuation occurs, and the dispatcher (a total function) does not crash. -/
theorem invalidGateId_dropped (N gateId : Nat) (action : String) (now : Nat)
    (gates : Nat → GateCtrl) (h : ¬(1 ≤ gateId ∧ gateId ≤ N)) :
    handleCommand N gateId action now gates = (gates, []) := by
  unfold handleCommand
  rw [if_neg h]

theorem invalidGateId_dropped_witness :
    ¬(1 ≤ 9 ∧ 9 ≤ 4) ∧
      handleCommand 4 9 "OPEN" 0 (fun _ => initState) = ((fun _ => initState), []) :=
  ⟨by decide, invalidGateId_dropped 4 9 "OPEN" 0 (fun _ => initState) (by decide)⟩

/-- C2 counterexample: on the concrete run that receives one OPEN command from
the boot state, the published open-transition status is not among the claimed
strings "online", "OPEN", "CLOSED" (the firmware publishes lowercase "open"). -/
theorem statusStrings_claim_false :
    ((run initState [Event.cmd "OPEN" 0]).2).all specClaimedStatusOk = false := by
  decide

/-- C2 (amended): every outbound status publication of any run uses the status
topic and carries a status string among "online", "open", "closed" (lower
case); the successful open transition publishes status "open" and the
scheduler-driven close publishes status "closed". -/
theorem statusStrings (s : GateCtrl) (events : List Event) :
    ((run s events).2).all pubOk = true ∧
    (∀ n x, (openGate n x).2 =
      [Output.servoWrite SERVO_OPEN_POSITION,
       Output.publish statusTopic (statusPayload "open")]) ∧
    (∀ x, (closeGate x).2 =
      [Output.servoWrite SERVO_CLOSED_POSITION,
       Output.publish statusTopic (statusPayload "closed")]) :=
  ⟨run_pubOk events s, fun n x => openGate_outs n x, fun x => closeGate_outs x⟩

/-- C4: an OPEN command while the gate is already OPEN is ignored — state and
recorded open timestamp are unchanged and nothing is published or actuated —
so every later tick behaves exactly as if the second command never arrived. -/
theorem openWhileOpen_ignored (now : Nat) (s : GateCtrl)
    (h : s.currentState = GateState.OPEN) :
    processGateCommand "OPEN" now s = (s, []) ∧
    (processGateCommand "OPEN" now s).1.gateOpenTime = s.gateOpenTime ∧
    (∀ t2, updateGateState t2 (processGateCommand "OPEN" now s).1 =
      updateGateState t2 s) := by
  have hne : ¬s.currentState = GateState.IDLE := by
    rw [h]; exact fun hc => GateState.noConfusion hc
  have h1 : processGateCommand "OPEN" now s = (s, []) := by
    unfold processGateCommand
    rw [if_pos rfl, if_neg hne]
  exact ⟨h1, by rw [h1], fun t2 => by rw [h1]⟩

theorem openWhileOpen_ignored_witness :
    (GateCtrl.mk GateState.OPEN 0 90).currentState = GateState.OPEN ∧
      processGateCommand "OPEN" 100 (GateCtrl.mk GateState.OPEN 0 90) =
        (GateCtrl.mk GateState.OPEN 0 90, []) :=
  ⟨rfl, (openWhileOpen_ignored 100 (GateCtrl.mk GateState.OPEN 0 90) rfl).1⟩

/-- C6: once the gate has returned to IDLE, any sequence of further scheduler
ticks is a complete no-op: the state is unchanged and nothing is published or
actuated. -/
theorem ticksAfterClose_noop (s : GateCtrl) (ts : List Nat)
    (h : s.currentState = GateState.IDLE) :
    run s (ts.map Event.tick) = (s, []) := by
  have hne : ¬s.currentState = GateState.OPEN := by
    rw [h]; exact fun hc => GateState.noConfusion hc
  induction ts with
  | nil => rfl
  | cons t ts ih =>
    have hstep : step s (Event.tick t) = (s, []) := by
      show updateGateState t s = (s, [])
      unfold updateGateState
      rw [if_neg hne]
    rw [List.map_cons, run_cons, hstep]
    simp only [ih, List.nil_append]

theorem ticksAfterClose_noop_witness :
    initState.currentState = GateState.IDLE ∧
      run initState ([0, 5000, 99999].map Event.tick) = (initState, []) :=
  ⟨rfl, ticksAfterClose_noop initState [0, 5000, 99999] rfl⟩

/-- C7: a command whose action is not exactly "OPEN" is dropped with no state
change and no output; moreover no command ever publishes a "closed" status or
changes the state of a non-IDLE gate — closing is exclusively tick-driven. -/
theorem nonOpenAction_dropped (action : String) (now : Nat) (s : GateCtrl)
    (h : action ≠ "OPEN") :
    processGateCommand action now s = (s, []) ∧
    (∀ a n x, Output.publish statusTopic (statusPayload "closed") ∉
      (processGateCommand a n x).2) ∧
    (∀ a n x, x.currentState = GateState.IDLE ∨ (processGateCommand a n x).1 = x) := by
  refine ⟨?_, ?_, ?_⟩
  · unfold processGateCommand
    rw [if_neg h]
  · intro a n x
    unfold processGateCommand
    split
    · split
      · rw [openGate_outs]
        decide
      · simp
    · simp
  · intro a n x
    by_cases hx : x.currentState = GateState.IDLE
    · exact Or.inl hx
    · refine Or.inr ?_
      unfold processGateCommand
      by_cases ha : a = "OPEN"
      · rw [if_pos ha, if_neg hx]
      · rw [if_neg ha]

theorem nonOpenAction_dropped_witness :
    "CLOSE" ≠ "OPEN" ∧ processGateCommand "CLOSE" 0 initState = (initState, []) :=
  ⟨by decide, (nonOpenAction_dropped "CLOSE" 0 initState (by decide)).1⟩

/-- C3: for a gate opened at real time t0 (its recorded timestamp being the
wrapped clock value), a tick at real time t with t - t0 < 5000 is a complete
no-op, while a tick with t - t0 ≥ 5000 closes the gate, driving the servo
closed and publishing exactly one "closed" status; once closed, any further
tick of the closed state is a no-op, so the close happens exactly once. -/
theorem deadline_correct (s : GateCtrl) (t0 t : Nat)
    (hs : s.currentState = GateState.OPEN)
    (ht : s.gateOpenTime = t0 % U32)
    (h1 : t0 ≤ t) (h2 : t - t0 < U32) :
    updateGateState (t % U32) s =
      (if t - t0 < GATE_OPEN_DURATION then (s, [])
       else (closedFrom s,
             [Output.servoWrite SERVO_CLOSED_POSITION,
              Output.publish statusTopic (statusPayload "closed")])) ∧
    (∀ t2, updateGateState t2 (closedFrom s) = (closedFrom s, [])) := by
  constructor
  · have he : usub (t % U32) s.gateOpenTime = t - t0 := by
      rw [ht]
      exact usub_mod t0 t h1 h2
    unfold updateGateState
    rw [if_pos hs, he]
    by_cases hd : t - t0 < GATE_OPEN_DURATION
    · rw [if_neg (Nat.not_le.mpr hd), if_pos hd]
    · rw [if_pos (Nat.le_of_not_lt hd), if_neg hd]
      unfold closeGate closedFrom
      obtain ⟨cs, gt, sp⟩ := s
      rfl
  · intro t2
    unfold updateGateState
    rw [if_neg (fun hc => GateState.noConfusion hc)]

theorem deadline_correct_witness :
    (GateCtrl.mk GateState.OPEN (1000 % U32) 90).currentState = GateState.OPEN ∧
    1000 ≤ 6000 ∧ 6000 - 1000 < U32 ∧
      updateGateState (6000 % U32) (GateCtrl.mk GateState.OPEN (1000 % U32) 90) =
        (if 6000 - 1000 < GATE_OPEN_DURATION
         then (GateCtrl.mk GateState.OPEN (1000 % U32) 90, [])
         else (closedFrom (GateCtrl.mk GateState.OPEN (1000 % U32) 90),
               [Output.servoWrite SERVO_CLOSED_POSITION,
                Output.publish statusTopic (statusPayload "closed")])) :=
  ⟨rfl, by decide, by decide,
    (deadline_correct (GateCtrl.mk GateState.OPEN (1000 % U32) 90) 1000 6000
      rfl rfl (by decide) (by decide)).1⟩

/-- C5: the elapsed-time computation in the 32-bit unsigned clock domain is
exact across wraparound — for real times t0 ≤ t whose difference fits in the
clock width, the unsigned subtraction of the wrapped timestamps equals the
real elapsed time, so a tick closes a gate opened at t0 exactly when
t - t0 ≥ 5000, even when the counter wraps between opening and the tick. -/
theorem wraparound_safe (t0 t : Nat) (h1 : t0 ≤ t) (h2 : t - t0 < U32) :
    usub (t % U32) (t0 % U32) = t - t0 ∧
    ((updateGateState (t % U32)
        (GateCtrl.mk GateState.OPEN (t0 % U32) SERVO_OPEN_POSITION)).1.currentState =
      if GATE_OPEN_DURATION ≤ t - t0 then GateState.IDLE else GateState.OPEN) := by
  have he := usub_mod t0 t h1 h2
  have he2 : usub (t % U32)
      (GateCtrl.mk GateState.OPEN (t0 % U32) SERVO_OPEN_POSITION).gateOpenTime =
      t - t0 := he
  refine ⟨he, ?_⟩
  unfold updateGateState
  rw [if_pos (show (GateCtrl.mk GateState.OPEN (t0 % U32)
    SERVO_OPEN_POSITION).currentState = GateState.OPEN from rfl), he2]
  by_cases hd : GATE_OPEN_DURATION ≤ t - t0
  · rw [if_pos hd, if_pos hd]
    rfl
  · rw [if_neg hd, if_neg hd]

theorem wraparound_safe_witness :
    (4294966296 ≤ 4294971296 ∧ 4294971296 - 4294966296 < U32 ∧
      (updateGateState (4294971296 % U32)
        (GateCtrl.mk GateState.OPEN (4294966296 % U32)
          SERVO_OPEN_POSITION)).1.currentState =
        (if GATE_OPEN_DURATION ≤ 4294971296 - 4294966296 then GateState.IDLE
         else GateState.OPEN)) ∧
    ((updateGateState (4294971295 % U32)
        (GateCtrl.mk GateState.OPEN (4294966296 % U32)
          SERVO_OPEN_POSITION)).1.currentState =
      (if GATE_OPEN_DURATION ≤ 4294971295 - 4294966296 then GateState.IDLE
       else GateState.OPEN)) :=
  ⟨⟨by decide, by decide,
    (wraparound_safe 4294966296 4294971296 (by decide) (by decide)).2⟩,
    (wraparound_safe 4294966296 4294971295 (by decide) (by decide)).2⟩

/-- C10: a tick that finds the gate IDLE, or OPEN with elapsed time below the
open duration, changes nothing — same state record, no publication, no servo
write; additionally, no tick ever writes the open timestamp, and a command
writes it only during the IDLE→OPEN transition. -/
theorem tick_frame (t : Nat) (s : GateCtrl)
    (h : s.currentState = GateState.IDLE ∨
      (s.currentState = GateState.OPEN ∧
        usub t s.gateOpenTime < GATE_OPEN_DURATION)) :
    updateGateState t s = (s, []) ∧
    (∀ t2 x, (updateGateState t2 x).1.gateOpenTime = x.gateOpenTime) ∧
    (∀ a n x, x.currentState = GateState.IDLE ∨
      (processGateCommand a n x).1.gateOpenTime = x.gateOpenTime) := by
  refine ⟨?_, ?_, ?_⟩
  · rcases h with h | ⟨h, hlt⟩
    · unfold updateGateState
      rw [if_neg (fun hc => by rw [h] at hc; exact GateState.noConfusion hc)]
    · unfold updateGateState
      rw [if_pos h, if_neg (Nat.not_le.mpr hlt)]
  · intro t2 x
    unfold updateGateState
    split
    · split
      · show (closeGate x).1.gateOpenTime = x.gateOpenTime
        obtain ⟨cs, gt, sp⟩ := x
        rfl
      · rfl
    · rfl
  · intro a n x
    by_cases hx : x.currentState = GateState.IDLE
    · exact Or.inl hx
    · refine Or.inr ?_
      unfold processGateCommand
      by_cases ha : a = "OPEN"
      · rw [if_pos ha, if_neg hx]
      · rw [if_neg ha]

theorem tick_frame_witness :
    (initState.currentState = GateState.IDLE ∨
      (initState.currentState = GateState.OPEN ∧
        usub 0 initState.gateOpenTime < GATE_OPEN_DURATION)) ∧
      updateGateState 0 initState = (initState, []) :=
  ⟨Or.inl rfl, (tick_frame 0 initState (Or.inl rfl)).1⟩

theorem step_oc (s : GateCtrl) (e : Event) :
    (ocStatuses (step s e).2 = [] ∧ expectOpen (step s e).1 = expectOpen s) ∨
    (ocStatuses (step s e).2 = ["open"] ∧ expectOpen s = true ∧
      expectOpen (step s e).1 = false) ∨
    (ocStatuses (step s e).2 = ["closed"] ∧ expectOpen s = false ∧
      expectOpen (step s e).1 = true) := by
  cases e with
  | online => exact Or.inl ⟨rfl, rfl⟩
  | cmd a now =>
    have hstep : step s (Event.cmd a now) = processGateCommand a now s := rfl
    rw [hstep]
    by_cases ha : a = "OPEN"
    · by_cases hs : s.currentState = GateState.IDLE
      · have hpc : processGateCommand a now s = openGate now s := by
          unfold processGateCommand
          rw [if_pos ha, if_pos hs]
        rw [hpc]
        refine Or.inr (Or.inl ⟨rfl, ?_, rfl⟩)
        simp [expectOpen, hs]
      · have hpc : processGateCommand a now s = (s, []) := by
          unfold processGateCommand
          rw [if_pos ha, if_neg hs]
        rw [hpc]
        exact Or.inl ⟨rfl, rfl⟩
    · have hpc : processGateCommand a now s = (s, []) := by
        unfold processGateCommand
        rw [if_neg ha]
      rw [hpc]
      exact Or.inl ⟨rfl, rfl⟩
  | tick now =>
    have hstep : step s (Event.tick now) = updateGateState now s := rfl
    rw [hstep]
    by_cases hs : s.currentState = GateState.OPEN
    · by_cases hd : GATE_OPEN_DURATION ≤ usub now s.gateOpenTime
      · have hug : updateGateState now s = closeGate s := by
          unfold updateGateState
          rw [if_pos hs, if_pos hd]
        rw [hug]
        refine Or.inr (Or.inr ⟨rfl, ?_, rfl⟩)
        simp [expectOpen, hs]
      · have hug : updateGateState now s = (s, []) := by
          unfold updateGateState
          rw [if_pos hs, if_neg hd]
        rw [hug]
        exact Or.inl ⟨rfl, rfl⟩
    · have hug : updateGateState now s = (s, []) := by
        unfold updateGateState
        rw [if_neg hs]
      rw [hug]
      exact Or.inl ⟨rfl, rfl⟩

theorem run_alt (events : List Event) : ∀ s : GateCtrl,
    altFrom (expectOpen s) (ocStatuses (run s events).2) = true := by
  induction events with
  | nil =>
    intro s
    show altFrom (expectOpen s) (ocStatuses []) = true
    cases expectOpen s <;> rfl
  | cons e es ih =>
    intro s
    have hsplit : ocStatuses (run s (e :: es)).2 =
        ocStatuses (step s e).2 ++ ocStatuses (run (step s e).1 es).2 := by
      rw [run_cons]
      exact List.filterMap_append _ _ _
    rw [hsplit]
    have hrest := ih (step s e).1
    rcases step_oc s e with ⟨h1, h2⟩ | ⟨h1, h2, h3⟩ | ⟨h1, h2, h3⟩
    · rw [h1, List.nil_append, ← h2]
      exact hrest
    · rw [h1, h2, List.singleton_append]
      rw [h3] at hrest
      show (decide ("open" = "open") &&
        altFrom false (ocStatuses (run (step s e).1 es).2)) = true
      rw [show decide ("open" = "open") = true from rfl, Bool.true_and]
      exact hrest
    · rw [h1, h2, List.singleton_append]
      rw [h3] at hrest
      show (decide ("closed" = "closed") &&
        altFrom true (ocStatuses (run (step s e).1 es).2)) = true
      rw [show decide ("closed" = "closed") = true from rfl, Bool.true_and]
      exact hrest

/-- C8: over any execution of the command/tick loop from the boot state, the
open/closed status publications strictly alternate starting with "open": each
"closed" is preceded by a matching "open" with no other open/closed
publication in between. -/
theorem pubs_alternate (events : List Event) :
    altFrom true (ocStatuses (run initState events).2) = true :=
  run_alt events initState

theorem step_states (s : GateCtrl) (e : Event)
    (h : s.currentState = GateState.IDLE ∨ s.currentState = GateState.OPEN) :
    (step s e).1.currentState = GateState.IDLE ∨
      (step s e).1.currentState = GateState.OPEN := by
  cases e with
  | online => exact h
  | cmd a now =>
    show (processGateCommand a now s).1.currentState = _ ∨
      (processGateCommand a now s).1.currentState = _
    unfold processGateCommand
    by_cases ha : a = "OPEN"
    · by_cases hs : s.currentState = GateState.IDLE
      · rw [if_pos ha, if_pos hs]
        exact Or.inr rfl
      · rw [if_pos ha, if_neg hs]
        exact h
    · rw [if_neg ha]
      exact h
  | tick now =>
    show (updateGateState now s).1.currentState = _ ∨
      (updateGateState now s).1.currentState = _
    unfold updateGateState
    by_cases hs : s.currentState = GateState.OPEN
    · by_cases hd : GATE_OPEN_DURATION ≤ usub now s.gateOpenTime
      · rw [if_pos hs, if_pos hd]
        exact Or.inl rfl
      · rw [if_pos hs, if_neg hd]
        exact h
    · rw [if_neg hs]
      exact h

theorem run_states (events : List Event) : ∀ s : GateCtrl,
    s.currentState = GateState.IDLE ∨ s.currentState = GateState.OPEN →
    (run s events).1.currentState = GateState.IDLE ∨
      (run s events).1.currentState = GateState.OPEN := by
  induction events with
  | nil => intro s h; exact h
  | cons e es ih =>
    intro s h
    rw [run_cons]
    exact ih (step s e).1 (step_states s e h)

/-- C9: between operations of the single-threaded loop the gate state is
always IDLE or OPEN — every state reachable from boot by commands, ticks and
reconnects is IDLE or OPEN, while the transient OPENING and CLOSING values
exist only inside a single openGate or closeGate call, whose returned states
are OPEN and IDLE respectively. -/
theorem observable_states (events : List Event) :
    ((run initState events).1.currentState = GateState.IDLE ∨
      (run initState events).1.currentState = GateState.OPEN) ∧
    (∀ n x, (openGate n x).1.currentState = GateState.OPEN) ∧
    (∀ x, (closeGate x).1.currentState = GateState.IDLE) :=
  ⟨run_states events initState (Or.inl rfl),
    fun _ _ => rfl, fun _ => rfl⟩
